import Mathlib

/-!
# Verification of the checkout pipeline (plan selection, payment, document upload)

Shallow embedding of the three core source modules:

* `PlanSelection` — `src/src/pages/PlanSelection.tsx`: duration-dependent
  pricing (`calculatePrice`), the free-plan duration restriction
  (`getAvailableDurations` and the corrective `useEffect`), and the
  `handleContinue` terminal action that persists the selection to
  `localStorage` and navigates to the verification step.
* `PaymentModal` — `src/src/components/payment/PaymentModal.tsx`:
  card-input validation, the simulated settlement delay (`setTimeout`),
  and the completion/close callbacks.
* `DocumentVerification` — the document-upload orchestrator
  (`handleContinue`): auth precondition, three-slot completeness check,
  three sequentially awaited storage uploads, and the single
  `verification_documents` insert.

Stateful React components are embedded as explicit state records plus
step functions; external stores (object storage, records store,
`localStorage`) are embedded as effect traces or explicit key-value
functions; the nondeterministic outcomes of storage calls are passed in
as oracles (`uploadOk`, `insertOk`).
-/

namespace PlanSelection

/-- A row of the `subscription_plans` catalog, restricted to the fields the
checkout logic reads (`id`, `name`, `price`). `price` is an integer ≥ 0 in
the source's data model. -/
structure Plan where
  id : String
  name : String
  price : Nat
deriving Repr, DecidableEq

/-- A duration option: human label and price multiplier
(source `interface DurationOption`). -/
structure DurationOption where
  label : String
  multiplier : ℚ
deriving Repr, DecidableEq

/-- The `"1dia"` option (source `durationOptions["1dia"]`). -/
def durationOption1dia : DurationOption := ⟨"1 dia", 1/2⟩

/-- The fixed, statically known record of five duration options
(source `durationOptions`, keyed by identifier). -/
def durationOptionsList : List (String × DurationOption) :=
  [("1dia", durationOption1dia),
   ("3dias", ⟨"3 dias", 1⟩),
   ("15dias", ⟨"15 dias", 5/2⟩),
   ("1mes", ⟨"1 mês", 7/2⟩),
   ("3meses", ⟨"3 meses", 8⟩)]

/-- Key lookup in `durationOptions` (source `durationOptions[id]`). -/
def durationLookup (d : String) : Option DurationOption :=
  (durationOptionsList.find? (fun e => e.1 == d)).map Prod.snd

/-- Source `getAvailableDurations`: for free plans (price = 0) only the
`"1dia"` entry, else the whole record. -/
def getAvailableDurations (plan : Plan) : List (String × DurationOption) :=
  if plan.price = 0 then [("1dia", durationOption1dia)] else durationOptionsList

/-- JavaScript `Math.round` on the exact value: `⌊x + 1/2⌋`
(round-half-up; exact for the integer×multiple-of-1/2 products that occur
here). -/
def jsMathRound (x : ℚ) : ℤ := ⌊x + 1/2⌋

/-- Round-half-up as the spec words it: the integer nearest `x`, with ties
rounded up. Spec-side comparator for the refinement claim about
`calculatePrice`. -/
def roundHalfUp (x : ℚ) : ℤ := ⌊x + 1/2⌋

/-- Source `calculatePrice`: 0 when the base price is 0, else
`Math.round(basePrice * durationMultiplier)`. -/
def calculatePrice (basePrice : Nat) (durationMultiplier : ℚ) : ℤ :=
  if basePrice = 0 then 0 else jsMathRound (basePrice * durationMultiplier)

/-- The component state of `PlanSelection`: the two `useState` hooks plus
the live catalog copy fed by `useRealTimeUpdates`. -/
structure SelState where
  selectedPlan : Option String
  selectedDuration : String
  plans : List Plan
deriving Repr, DecidableEq

/-- Initial component state: no plan selected, duration `"3dias"`, empty
catalog (source lines 28–34). -/
def initState : SelState := ⟨none, "3dias", []⟩

/-- The first `useEffect` (lines 37–41): once plans are loaded and no plan
is selected, select the first plan. -/
def initialPlanEffect (s : SelState) : SelState :=
  match s.plans, s.selectedPlan with
  | p :: _, none => { s with selectedPlan := some p.id }
  | _, _ => s

/-- `plans.find(p => p.id === selectedPlan)` as used by the corrective
effect and by `handleContinue`. -/
def findPlan (s : SelState) : Option Plan :=
  match s.selectedPlan with
  | none => none
  | some sel => s.plans.find? (fun p => p.id == sel)

/-- The second `useEffect` (lines 60–68): if the selected plan is free and
the duration is not `"1dia"`, force the duration to `"1dia"`. -/
def freePlanCorrection (s : SelState) : SelState :=
  match findPlan s with
  | some p =>
      if p.price = 0 && s.selectedDuration != "1dia" then
        { s with selectedDuration := "1dia" }
      else s
  | none => s

/-- The stabilized result of re-running both effects after a state change
(the initial-plan effect may change `selectedPlan`, after which the
corrective effect re-runs; a fixpoint is reached after this composition
because the corrective effect only changes the duration). -/
def applyRenderEffects (s : SelState) : SelState :=
  freePlanCorrection (initialPlanEffect s)

/-- User-interface / catalog events that mutate the selection state. -/
inductive Ev
  | selectPlan (id : String)
  | selectDuration (d : String)
  | plansUpdate (ps : List Plan)

/-- One observable transition of the component, including the re-run of
the two effects where their dependency arrays fire. Guards mirror what the
rendered UI makes possible: plan cards exist only for catalog plans;
duration radios are rendered only for the selected plan and only from
`getAvailableDurations`; catalog snapshots come from a table whose `id` is
a primary key, hence duplicate-free. The effects' dependency arrays are
`[plans, selectedPlan]`, so a duration change re-runs neither effect. -/
inductive Step : SelState → Ev → SelState → Prop
  | selectPlan (s : SelState) (p : Plan) (hp : p ∈ s.plans) :
      Step s (.selectPlan p.id)
        (applyRenderEffects { s with selectedPlan := some p.id })
  | selectDuration (s : SelState) (p : Plan) (d : String) (o : DurationOption)
      (hsel : s.selectedPlan = some p.id) (hp : p ∈ s.plans)
      (hd : (d, o) ∈ getAvailableDurations p) :
      Step s (.selectDuration d) { s with selectedDuration := d }
  | plansUpdate (s : SelState) (ps : List Plan)
      (hnd : (ps.map Plan.id).Nodup) :
      Step s (.plansUpdate ps) (applyRenderEffects { s with plans := ps })

/-- States reachable from the initial component state. -/
inductive Reachable : SelState → Prop
  | init : Reachable initState
  | step {s : SelState} {e : Ev} {s' : SelState} :
      Reachable s → Step s e s' → Reachable s'

/-- The free-plan selection invariant: whenever the currently selected
plan resolves to a catalog plan with price 0, the selected duration is
`"1dia"`. -/
def Inv (s : SelState) : Prop :=
  ∀ p, findPlan s = some p → p.price = 0 → s.selectedDuration = "1dia"

/-- Catalog ids are duplicate-free. -/
def NodupIds (s : SelState) : Prop := (s.plans.map Plan.id).Nodup

/-- Navigation / notification effects of `handleContinue`. -/
inductive NavEff
  | toast (title : String)
  | navigate (path : String)
deriving Repr, DecidableEq

/-- One `localStorage.setItem` call on a key-value store. -/
def setItem (k v : String) (st : String → Option String) :
    String → Option String :=
  fun k' => if k' = k then some v else st k'

/-- Source `handleContinue` (lines 75–89): no-op when no plan is selected;
otherwise write the two keys, toast, and navigate to `/verificacao`. -/
def handleContinue (s : SelState) (st : String → Option String) :
    (String → Option String) × List NavEff :=
  match s.selectedPlan with
  | none => (st, [])
  | some sel =>
      (setItem "selectedDuration" s.selectedDuration
        (setItem "selectedPlan" sel st),
       [.toast "Plano selecionado", .navigate "/verificacao"])

end PlanSelection

namespace PaymentModal

/-- The payment-method radio value (source `paymentMethod`). -/
inductive Method
  | credit_card
  | pix
deriving Repr, DecidableEq

/-- The card-details form state (source `cardDetails`). -/
structure CardDetails where
  number : String
  name : String
  expiry : String
  cvc : String
deriving Repr, DecidableEq

/-- The modal's observable state: the `isProcessing` flag and whether the
dialog is open (the `open` prop owned by the host). -/
structure PayState where
  isProcessing : Bool
  dialogOpen : Bool
deriving Repr, DecidableEq

/-- Observable effects of the payment flow. -/
inductive PayEff
  | toast (title : String) (destructive : Bool)
  | paymentComplete
  | closeDialog
deriving Repr, DecidableEq

/-- The validation test of `handleSubmit` line 47:
`number.length < 16 || !name || expiry.length < 5 || cvc.length < 3`. -/
def cardInvalid (c : CardDetails) : Bool :=
  c.number.length < 16 || c.name == "" || c.expiry.length < 5 ||
    c.cvc.length < 3

/-- Result of one `handleSubmit` call: the updated modal state, whether a
settlement timer was scheduled, and the immediate effects. -/
structure SubmitResult where
  state : PayState
  timerScheduled : Bool
  effects : List PayEff
deriving Repr, DecidableEq

/-- Source `handleSubmit` (lines 44–70): for `credit_card`, invalid input
toasts and returns with no other effect; otherwise set `isProcessing` and
schedule the 2000 ms settlement timer. -/
def handleSubmit (m : Method) (c : CardDetails) (s : PayState) :
    SubmitResult :=
  if m == Method.credit_card && cardInvalid c then
    ⟨s, false, [.toast "Informações incompletas" true]⟩
  else
    ⟨{ s with isProcessing := true }, true, []⟩

/-- The scheduled `setTimeout` callback (lines 61–69): clear
`isProcessing`, toast success, invoke the completion callback, close.
It runs whenever the timer fires — the source installs no cleanup and the
callback does not test the dialog state, so it does not depend on
`dialogOpen`. -/
def timerCallback (s : PayState) : PayState × List PayEff :=
  ({ s with isProcessing := false },
   [.toast "Pagamento aprovado!" false, .paymentComplete, .closeDialog])

/-- The host closing the dialog (`onClose` / `onOpenChange`): clears the
open flag; the source cancels no pending timer here. -/
def closeDialog (s : PayState) : PayState := { s with dialogOpen := false }

/-- A full run of one submission: the `handleSubmit` effects followed by
the timer callback's effects when a timer was scheduled. -/
def fullRun (m : Method) (c : CardDetails) (s : PayState) : List PayEff :=
  let r := handleSubmit m c s
  if r.timerScheduled then r.effects ++ (timerCallback r.state).2
  else r.effects

/-- Number of completion-callback invocations in an effect trace. -/
def completionCount (l : List PayEff) : Nat :=
  (l.filter fun e => e == PayEff.paymentComplete).length

end PaymentModal

namespace DocumentVerification

/-- The three required document slots. -/
inductive Slot
  | front
  | back
  | selfie
deriving Repr, DecidableEq

/-- The bound files of the three slots (`documentImages[i].file`); `none`
when no file has been selected for the slot. The string stands for the
opaque binary payload. -/
structure DocState where
  front : Option String
  back : Option String
  selfie : Option String
deriving Repr, DecidableEq

/-- The row inserted into `verification_documents` (source lines
130–138). -/
structure VerificationRow where
  user_id : String
  document_front_url : String
  document_back_url : String
  document_selfie_url : String
  status : String
deriving Repr, DecidableEq

/-- Observable effects of the submission flow, in issue order. -/
inductive DocEff
  | toast (title : String) (destructive : Bool)
  | navigate (path : String)
  | storageUpload (bucket : String) (key : String) (ok : Bool)
  | insertRow (r : VerificationRow) (ok : Bool)
deriving Repr, DecidableEq

/-- Outcome classification per the error-handling taxonomy. -/
inductive Outcome
  | authRequired
  | incompleteSubmission
  | uploadError
  | insertError
  | success
deriving Repr, DecidableEq

/-- Storage key `verification/{ownerId}/{slot}_{unixMillis}` (source lines
96–98). -/
def uploadPath (uid slotName : String) (now : Nat) : String :=
  "verification/" ++ uid ++ "/" ++ slotName ++ "_" ++ toString now

/-- Model of `supabase.storage.from(bucket).getPublicUrl(path)`: a URL
determined by bucket and path. -/
def publicUrl (bucket path : String) : String :=
  "/storage/v1/object/public/" ++ bucket ++ "/" ++ path

/-- Source `handleContinue` (lines 69–161). Auth precondition, then the
three-slot completeness check, then the three sequentially awaited
uploads — whose error fields are only inspected *after* all three have
been issued (line 120) — then the public-URL resolution and the single
insert. `uploadOk`/`insertOk` are the storage and records-store outcome
oracles; `now` is `Date.now()`. -/
def handleContinue (user : Option String) (docs : DocState) (now : Nat)
    (uploadOk : Slot → Bool) (insertOk : Bool) : Outcome × List DocEff :=
  match user with
  | none =>
      (.authRequired,
       [.toast "Você precisa estar logado" true, .navigate "/auth"])
  | some uid =>
      if docs.front.isSome && docs.back.isSome && docs.selfie.isSome then
        let frontPath := uploadPath uid "front" now
        let backPath := uploadPath uid "back" now
        let selfiePath := uploadPath uid "selfie" now
        let fok := uploadOk .front
        let bok := uploadOk .back
        let sok := uploadOk .selfie
        let ups : List DocEff :=
          [.storageUpload "verifications" frontPath fok,
           .storageUpload "verifications" backPath bok,
           .storageUpload "verifications" selfiePath sok]
        if fok && bok && sok then
          let row : VerificationRow :=
            ⟨uid, publicUrl "verifications" frontPath,
             publicUrl "verifications" backPath,
             publicUrl "verifications" selfiePath, "pending"⟩
          if insertOk then
            (.success,
             ups ++ [.insertRow row true,
                     .toast "Documentos enviados" false,
                     .navigate "/dashboard"])
          else
            (.insertError,
             ups ++ [.insertRow row false,
                     .toast "Erro ao enviar documentos" true])
        else
          (.uploadError, ups ++ [.toast "Erro ao enviar documentos" true])
      else
        (.incompleteSubmission, [.toast "Documentos incompletos" true])

/-- Number of storage upload calls issued in a trace. -/
def uploadCallCount (l : List DocEff) : Nat :=
  (l.filter fun e =>
    match e with
    | .storageUpload _ _ _ => true
    | _ => false).length

/-- Number of storage upload calls that succeeded — after a failed
submission these are exactly the orphaned objects left in storage. -/
def orphanCount (l : List DocEff) : Nat :=
  (l.filter fun e =>
    match e with
    | .storageUpload _ _ ok => ok
    | _ => false).length

/-- Number of record-insert calls issued in a trace. -/
def insertCallCount (l : List DocEff) : Nat :=
  (l.filter fun e =>
    match e with
    | .insertRow _ _ => true
    | _ => false).length

/-- The rows of the successful record-insert calls in a trace. -/
def insertedRows (l : List DocEff) : List VerificationRow :=
  l.filterMap fun e =>
    match e with
    | .insertRow r true => some r
    | _ => none

/-- How many of the three slots have a bound file. -/
def boundCount (d : DocState) : Nat :=
  (if d.front.isSome then 1 else 0) + (if d.back.isSome then 1 else 0) +
    (if d.selfie.isSome then 1 else 0)

end DocumentVerification

namespace PlanSelection

theorem initialPlanEffect_plans (s : SelState) :
    (initialPlanEffect s).plans = s.plans := by
  unfold initialPlanEffect
  split <;> rfl

theorem freePlanCorrection_plans (s : SelState) :
    (freePlanCorrection s).plans = s.plans := by
  unfold freePlanCorrection
  split
  · split <;> rfl
  · rfl

theorem applyRenderEffects_plans (s : SelState) :
    (applyRenderEffects s).plans = s.plans := by
  unfold applyRenderEffects
  rw [freePlanCorrection_plans, initialPlanEffect_plans]

theorem findPlan_freePlanCorrection (s : SelState) :
    findPlan (freePlanCorrection s) = findPlan s := by
  unfold freePlanCorrection
  split
  · split <;> rfl
  · rfl

theorem inv_freePlanCorrection (s : SelState) : Inv (freePlanCorrection s) := by
  intro p hp hprice
  rw [findPlan_freePlanCorrection] at hp
  by_cases hd : s.selectedDuration = "1dia" <;>
    simp [freePlanCorrection, hp, hprice, hd]

theorem initialPlanEffect_of_some {s : SelState} {x : String}
    (h : s.selectedPlan = some x) : initialPlanEffect s = s := by
  obtain ⟨sp, sd, pl⟩ := s
  cases h
  cases pl <;> rfl

theorem find_of_nodup (l : List Plan) (hnd : (l.map Plan.id).Nodup)
    (p : Plan) (hp : p ∈ l) :
    l.find? (fun q => q.id == p.id) = some p := by
  induction l with
  | nil => cases hp
  | cons a t ih =>
    rw [List.map_cons, List.nodup_cons] at hnd
    by_cases he : a.id = p.id
    · have hap : a = p := by
        rcases List.mem_cons.mp hp with h | h
        · exact h.symm
        · exact absurd (by rw [he]; exact List.mem_map_of_mem Plan.id h) hnd.1
      subst hap
      exact List.find?_cons_of_pos _ (by simp)
    · have hpt : p ∈ t := by
        rcases List.mem_cons.mp hp with h | h
        · subst h; exact absurd rfl he
        · exact h
      rw [List.find?_cons_of_neg _ (by simp [he])]
      exact ih hnd.2 hpt

theorem step_preserves_nodup_inv {s : SelState} {e : Ev} {s' : SelState}
    (hstep : Step s e s') (ih : NodupIds s ∧ Inv s) :
    NodupIds s' ∧ Inv s' := by
  cases hstep with
  | selectPlan p hp =>
    refine ⟨?_, inv_freePlanCorrection _⟩
    unfold NodupIds
    rw [applyRenderEffects_plans]
    exact ih.1
  | plansUpdate ps hnd =>
    refine ⟨?_, inv_freePlanCorrection _⟩
    unfold NodupIds
    rw [applyRenderEffects_plans]
    exact hnd
  | selectDuration p d o hsel hp hd =>
    refine ⟨ih.1, ?_⟩
    intro q hq hqprice
    have hq' : findPlan s = some q := hq
    have hfind : s.plans.find? (fun r => r.id == p.id) = some p :=
      find_of_nodup s.plans ih.1 p hp
    have hps : findPlan s = some p := by
      unfold findPlan
      rw [hsel]
      exact hfind
    rw [hps] at hq'
    injection hq' with hq''
    subst hq''
    have hd1 : d = "1dia" := by
      simp [getAvailableDurations, hqprice] at hd
      exact hd.1
    simpa using hd1

theorem reachable_nodup_inv (s : SelState) (h : Reachable s) :
    NodupIds s ∧ Inv s := by
  induction h with
  | init =>
    refine ⟨List.nodup_nil, ?_⟩
    intro p hp
    simp [findPlan, initState] at hp
  | step hr hstep ih => exact step_preserves_nodup_inv hstep ih

/-- C3: for every multiplier m, `calculatePrice 0 m = 0`; for every base
price > 0 and multiplier m, `calculatePrice` equals round-half-up of the
product; in particular price(100, 2.5) = 250 and price(99, 0.5) = 50. -/
theorem C3_price_round_half_up :
    (∀ m : ℚ, calculatePrice 0 m = 0) ∧
    (∀ (b : ℕ) (m : ℚ), 0 < b → calculatePrice b m = roundHalfUp (b * m)) ∧
    calculatePrice 100 (5/2) = 250 ∧
    calculatePrice 99 (1/2) = 50 := by
  refine ⟨fun m => rfl, fun b m hb => ?_, ?_, ?_⟩
  · simp [calculatePrice, jsMathRound, roundHalfUp, hb.ne']
  · norm_num [calculatePrice, jsMathRound]
  · norm_num [calculatePrice, jsMathRound]

/-- Witness for C3: a positive base price with the round-half-up
characterization, at base price 3 and multiplier 5/2. -/
theorem C3_price_round_half_up_witness :
    calculatePrice 3 (5/2) = roundHalfUp ((3 : ℕ) * (5/2 : ℚ)) :=
  C3_price_round_half_up.2.1 3 (5/2) (by norm_num)

/-- C4: the free-plan selection invariant holds after every transition
(every reachable state satisfies it); selecting a price-0 catalog plan
from any reachable state — whatever duration was selected, e.g. "3meses" —
forces the duration to "1dia"; and `getAvailableDurations` of a price-0
plan is exactly the singleton shortest option "1dia". -/
theorem C4_free_plan_invariant :
    (∀ s, Reachable s → Inv s) ∧
    (∀ s p, Reachable s → p ∈ s.plans → p.price = 0 →
      (applyRenderEffects
        { s with selectedPlan := some p.id }).selectedDuration = "1dia") ∧
    (∀ p : Plan, p.price = 0 →
      getAvailableDurations p = [("1dia", durationOption1dia)]) := by
  refine ⟨fun s h => (reachable_nodup_inv s h).2, ?_, ?_⟩
  · intro s p hr hp hprice
    have hnd : NodupIds s := (reachable_nodup_inv s hr).1
    have hfind : s.plans.find? (fun r => r.id == p.id) = some p :=
      find_of_nodup s.plans hnd p hp
    have h2 : findPlan { s with selectedPlan := some p.id } = some p := by
      unfold findPlan
      exact hfind
    rw [applyRenderEffects,
      initialPlanEffect_of_some (s := { s with selectedPlan := some p.id })
        (x := p.id) rfl]
    exact inv_freePlanCorrection _ p
      (by rw [findPlan_freePlanCorrection]; exact h2) hprice
  · intro p h
    simp [getAvailableDurations, h]

/-- Witness for C4 at a concrete reachable state: after the catalog loads
with a single free plan, the auto-selected plan is free and the duration
has been forced from the initial "3dias" to "1dia". -/
theorem C4_free_plan_invariant_witness :
    (applyRenderEffects
      { initState with plans := [⟨"p1", "Gratis", 0⟩] }).selectedDuration =
      "1dia" :=
  C4_free_plan_invariant.1
    (applyRenderEffects { initState with plans := [⟨"p1", "Gratis", 0⟩] })
    (Reachable.step Reachable.init
      (Step.plansUpdate initState [⟨"p1", "Gratis", 0⟩] (by decide)))
    ⟨"p1", "Gratis", 0⟩ (by decide) rfl

/-- C9: `handleContinue` persists and navigates if and only if a plan is
selected. With no plan it returns the store untouched and emits no effect;
with a plan it writes exactly the keys "selectedPlan" and
"selectedDuration" (overwriting previous values, all other keys
untouched) and navigates to the verification step. -/
theorem C9_continue_persists_iff_plan :
    (∀ (s : SelState) (st : String → Option String),
      s.selectedPlan = none → handleContinue s st = (st, [])) ∧
    (∀ (s : SelState) (st : String → Option String) (sel : String),
      s.selectedPlan = some sel →
      (handleContinue s st).1 "selectedPlan" = some sel ∧
      (handleContinue s st).1 "selectedDuration" = some s.selectedDuration ∧
      (∀ k, k ≠ "selectedPlan" → k ≠ "selectedDuration" →
        (handleContinue s st).1 k = st k) ∧
      (handleContinue s st).2 =
        [NavEff.toast "Plano selecionado", NavEff.navigate "/verificacao"]) := by
  constructor
  · intro s st h
    simp [handleContinue, h]
  · intro s st sel h
    refine ⟨?_, ?_, ?_, ?_⟩
    · simp [handleContinue, h, setItem]
    · simp [handleContinue, h, setItem]
    · intro k h1 h2
      simp [handleContinue, h, setItem, h1, h2]
    · simp [handleContinue, h]

/-- Witness for C9: with plan "p1" selected, the write lands under key
"selectedPlan" and the flow navigates to the verification step. -/
theorem C9_continue_persists_iff_plan_witness :
    (handleContinue ⟨some "p1", "3dias", []⟩ (fun _ => none)).1 "selectedPlan" =
      some "p1" ∧
    (handleContinue ⟨some "p1", "3dias", []⟩ (fun _ => none)).2 =
      [NavEff.toast "Plano selecionado", NavEff.navigate "/verificacao"] :=
  ⟨(C9_continue_persists_iff_plan.2 ⟨some "p1", "3dias", []⟩ (fun _ => none)
      "p1" rfl).1,
   (C9_continue_persists_iff_plan.2 ⟨some "p1", "3dias", []⟩ (fun _ => none)
      "p1" rfl).2.2.2⟩

/-- C10: the initial selection has duration "3dias", whose multiplier is
1.0 (not the shortest option); for a buyer whose first loaded plan has a
positive base price and who never touches the duration choice,
`handleContinue` persists duration "3dias" and the payable amount equals
the plan's base price. -/
theorem C10_default_duration_3dias :
    initState.selectedDuration = "3dias" ∧
    durationLookup "3dias" = some ⟨"3 dias", 1⟩ ∧
    (∀ (p : Plan) (ps : List Plan) (st : String → Option String),
      0 < p.price →
      (applyRenderEffects { initState with plans := p :: ps }).selectedPlan =
        some p.id ∧
      (applyRenderEffects
        { initState with plans := p :: ps }).selectedDuration = "3dias" ∧
      (handleContinue (applyRenderEffects { initState with plans := p :: ps })
        st).1 "selectedDuration" = some "3dias" ∧
      (handleContinue (applyRenderEffects { initState with plans := p :: ps })
        st).1 "selectedPlan" = some p.id ∧
      calculatePrice p.price 1 = (p.price : ℤ)) := by
  refine ⟨rfl, by decide, ?_⟩
  intro p ps st hprice
  have hfp : findPlan (⟨some p.id, "3dias", p :: ps⟩ : SelState) = some p := by
    unfold findPlan
    exact List.find?_cons_of_pos _ (by simp)
  have hcorr : freePlanCorrection (⟨some p.id, "3dias", p :: ps⟩ : SelState) =
      ⟨some p.id, "3dias", p :: ps⟩ := by
    simp [freePlanCorrection, hfp, hprice.ne']
  have hs : applyRenderEffects { initState with plans := p :: ps } =
      ⟨some p.id, "3dias", p :: ps⟩ := hcorr
  rw [hs]
  refine ⟨rfl, rfl, ?_, ?_, ?_⟩
  · simp [handleContinue, setItem]
  · simp [handleContinue, setItem]
  · simp [calculatePrice, jsMathRound, hprice.ne']
    norm_num

/-- Witness for C10: a concrete paid plan as first catalog entry keeps the
default duration "3dias" and prices at the base price. -/
theorem C10_default_duration_3dias_witness :
    (applyRenderEffects
      { initState with plans := [⟨"p2", "Rubi", 80⟩] }).selectedDuration =
      "3dias" ∧
    calculatePrice 80 1 = (80 : ℤ) :=
  ⟨(C10_default_duration_3dias.2.2 ⟨"p2", "Rubi", 80⟩ [] (fun _ => none)
      (by decide)).2.1,
   (C10_default_duration_3dias.2.2 ⟨"p2", "Rubi", 80⟩ [] (fun _ => none)
      (by decide)).2.2.2.2⟩

end PlanSelection

namespace PaymentModal

/-- C2 evidence (code bug): the source's settlement `setTimeout` callback
is fire-and-forget, not cancellation-aware. Evaluated at a state where the
dialog has already been closed (`dialogOpen = false`), the callback's
eventual resolution is not a no-op: it still emits the success toast,
invokes the completion callback exactly once, and calls close — and its
effects do not depend on the dialog state at all. -/
theorem C2_timer_not_cancellation_aware :
    (timerCallback ⟨true, false⟩).2 ≠ [] ∧
    PayEff.paymentComplete ∈ (timerCallback ⟨true, false⟩).2 ∧
    (timerCallback ⟨true, false⟩).2 = (timerCallback ⟨true, true⟩).2 ∧
    completionCount (timerCallback ⟨true, false⟩).2 = 1 := by
  refine ⟨by decide, by decide, rfl, by decide⟩

/-- C6: for every credit-card input violating the validation rule
(number length ≥ 16, non-empty holder name, expiry length ≥ 5, cvc length
≥ 3), `handleSubmit` returns the state unchanged, schedules no settlement
timer (fails before any delay), and emits only the destructive validation
toast — no processing state, no completion callback, no dialog close. -/
theorem C6_validation_no_side_effects (c : CardDetails) (s : PayState)
    (h : cardInvalid c = true) :
    handleSubmit Method.credit_card c s =
      ⟨s, false, [PayEff.toast "Informações incompletas" true]⟩ := by
  simp [handleSubmit, h]

/-- Witness for C6 at the claim's input `number = "123"`. -/
theorem C6_validation_no_side_effects_witness :
    handleSubmit Method.credit_card ⟨"123", "A", "12/30", "123"⟩ ⟨false, true⟩ =
      ⟨⟨false, true⟩, false, [PayEff.toast "Informações incompletas" true]⟩ :=
  C6_validation_no_side_effects ⟨"123", "A", "12/30", "123"⟩ ⟨false, true⟩
    (by decide)

/-- C7: for every valid payment input (a credit card passing validation,
or any pix/instant-transfer submission, which is never validated),
`handleSubmit` enters the processing state, schedules the fixed settlement
timer, and the full run resolves with the success toast, exactly one
completion-callback invocation, and the dialog close — with no failure
effect on this path. -/
theorem C7_valid_payment_succeeds (m : Method) (c : CardDetails) (s : PayState)
    (h : m = Method.pix ∨ cardInvalid c = false) :
    (handleSubmit m c s).state.isProcessing = true ∧
    (handleSubmit m c s).timerScheduled = true ∧
    (handleSubmit m c s).effects = [] ∧
    fullRun m c s = [PayEff.toast "Pagamento aprovado!" false,
      PayEff.paymentComplete, PayEff.closeDialog] ∧
    completionCount (fullRun m c s) = 1 := by
  have hcond : (m == Method.credit_card && cardInvalid c) = false := by
    rcases h with rfl | h
    · rfl
    · simp [h]
  have hsub : handleSubmit m c s = ⟨{ s with isProcessing := true }, true, []⟩ := by
    simp [handleSubmit, hcond]
  have hfull : fullRun m c s = [PayEff.toast "Pagamento aprovado!" false,
      PayEff.paymentComplete, PayEff.closeDialog] := by
    simp [fullRun, hsub, timerCallback]
  exact ⟨by rw [hsub], by rw [hsub], by rw [hsub], hfull, by rw [hfull]; decide⟩

/-- Witness for C7 at the claim's input, the valid card
`number = "4111111111111111"`. -/
theorem C7_valid_payment_succeeds_witness :
    completionCount (fullRun Method.credit_card
      ⟨"4111111111111111", "A", "12/30", "123"⟩ ⟨false, true⟩) = 1 ∧
    (handleSubmit Method.credit_card
      ⟨"4111111111111111", "A", "12/30", "123"⟩ ⟨false, true⟩).timerScheduled =
      true :=
  ⟨(C7_valid_payment_succeeds Method.credit_card
      ⟨"4111111111111111", "A", "12/30", "123"⟩ ⟨false, true⟩
      (Or.inr (by decide))).2.2.2.2,
   (C7_valid_payment_succeeds Method.credit_card
      ⟨"4111111111111111", "A", "12/30", "123"⟩ ⟨false, true⟩
      (Or.inr (by decide))).2.1⟩

end PaymentModal

namespace DocumentVerification

/-- A submission with all three slots bound whose second upload (back)
fails while the first and third succeed — the scenario of the claim about
partial upload failure. -/
def c1Docs : DocState := ⟨some "front.png", some "back.png", some "selfie.png"⟩

/-- Upload oracle for that scenario: the back upload fails, front and
selfie succeed. -/
def c1UploadOk : Slot → Bool := fun sl =>
  match sl with
  | .back => false
  | _ => true

/-- C1 counterexample: when upload 2 (back) fails after upload 1 (front)
succeeded, the source still issues the third upload call (3 storage
upload calls, not 2) and leaves two orphaned objects (front and selfie),
not exactly one — the error fields are only inspected after all three
awaits. The failure outcome and the absence of any insert do hold. -/
theorem C1_counterexample_second_upload_fails :
    (handleContinue (some "u1") c1Docs 0 c1UploadOk true).1 =
      Outcome.uploadError ∧
    insertCallCount (handleContinue (some "u1") c1Docs 0 c1UploadOk true).2 =
      0 ∧
    uploadCallCount (handleContinue (some "u1") c1Docs 0 c1UploadOk true).2 =
      3 ∧
    orphanCount (handleContinue (some "u1") c1Docs 0 c1UploadOk true).2 = 2 ∧
    ¬(uploadCallCount (handleContinue (some "u1") c1Docs 0 c1UploadOk true).2 =
        2 ∧
      orphanCount (handleContinue (some "u1") c1Docs 0 c1UploadOk true).2 =
        1) := by
  decide

/-- C1 amended: for every authenticated submission with all three slots
bound in which some upload fails, `handleContinue` fails with the upload
error, inserts no verification record, but issues all three storage
upload calls regardless of which one failed; the orphaned objects left in
storage are exactly the successful uploads (e.g. two of them when only
the back upload fails), not necessarily one. -/
theorem C1_amended_no_abort_orphans (u : String) (d : DocState) (now : Nat)
    (uploadOk : Slot → Bool) (insertOk : Bool)
    (hf : d.front.isSome = true) (hb : d.back.isSome = true)
    (hs : d.selfie.isSome = true)
    (hfail : uploadOk Slot.front = false ∨ uploadOk Slot.back = false ∨
      uploadOk Slot.selfie = false) :
    (handleContinue (some u) d now uploadOk insertOk).1 =
      Outcome.uploadError ∧
    insertCallCount (handleContinue (some u) d now uploadOk insertOk).2 = 0 ∧
    uploadCallCount (handleContinue (some u) d now uploadOk insertOk).2 = 3 ∧
    orphanCount (handleContinue (some u) d now uploadOk insertOk).2 =
      ((if uploadOk Slot.front then 1 else 0) +
        (if uploadOk Slot.back then 1 else 0) +
        (if uploadOk Slot.selfie then 1 else 0)) := by
  cases hof : uploadOk Slot.front <;> cases hob : uploadOk Slot.back <;>
    cases hos : uploadOk Slot.selfie <;>
    simp_all [handleContinue, uploadCallCount, insertCallCount, orphanCount]

/-- Witness for the amended C1 at the concrete second-upload-fails
scenario. -/
theorem C1_amended_no_abort_orphans_witness :
    (handleContinue (some "u1") c1Docs 5 c1UploadOk true).1 =
      Outcome.uploadError ∧
    insertCallCount (handleContinue (some "u1") c1Docs 5 c1UploadOk true).2 =
      0 :=
  ⟨(C1_amended_no_abort_orphans "u1" c1Docs 5 c1UploadOk true rfl rfl rfl
      (Or.inr (Or.inl rfl))).1,
   (C1_amended_no_abort_orphans "u1" c1Docs 5 c1UploadOk true rfl rfl rfl
      (Or.inr (Or.inl rfl))).2.1⟩

theorem publicUrl_ne_empty (bucket path : String) :
    publicUrl bucket path ≠ "" := by
  intro h
  have h2 := congrArg String.length h
  rw [publicUrl] at h2
  simp [String.length_append] at h2
  exact absurd h2.1.1.1 (by decide)

/-- C5: for every authenticated submission with all three slots bound and
all uploads succeeding, `handleContinue` succeeds and issues exactly one
verification-record insert, whose row has status "pending" and all three
document URLs resolved from the uploaded objects' paths (each URL a
non-empty string). -/
theorem C5_success_single_pending_insert (u : String) (d : DocState)
    (now : Nat) (uploadOk : Slot → Bool)
    (hf : d.front.isSome = true) (hb : d.back.isSome = true)
    (hs : d.selfie.isSome = true) (hok : ∀ sl, uploadOk sl = true) :
    (handleContinue (some u) d now uploadOk true).1 = Outcome.success ∧
    insertedRows (handleContinue (some u) d now uploadOk true).2 =
      [⟨u, publicUrl "verifications" (uploadPath u "front" now),
        publicUrl "verifications" (uploadPath u "back" now),
        publicUrl "verifications" (uploadPath u "selfie" now), "pending"⟩] ∧
    insertCallCount (handleContinue (some u) d now uploadOk true).2 = 1 ∧
    publicUrl "verifications" (uploadPath u "front" now) ≠ "" ∧
    publicUrl "verifications" (uploadPath u "back" now) ≠ "" ∧
    publicUrl "verifications" (uploadPath u "selfie" now) ≠ "" := by
  refine ⟨?_, ?_, ?_, publicUrl_ne_empty _ _, publicUrl_ne_empty _ _,
    publicUrl_ne_empty _ _⟩ <;>
    simp [handleContinue, hf, hb, hs, hok, insertedRows, insertCallCount]

/-- Witness for C5 at a concrete fully bound, fully succeeding
submission. -/
theorem C5_success_single_pending_insert_witness :
    (handleContinue (some "u2") ⟨some "f.png", some "b.png", some "s.png"⟩ 7
      (fun _ => true) true).1 = Outcome.success ∧
    insertCallCount (handleContinue (some "u2")
      ⟨some "f.png", some "b.png", some "s.png"⟩ 7 (fun _ => true) true).2 =
      1 :=
  ⟨(C5_success_single_pending_insert "u2"
      ⟨some "f.png", some "b.png", some "s.png"⟩ 7 (fun _ => true) rfl rfl rfl
      (fun _ => rfl)).1,
   (C5_success_single_pending_insert "u2"
      ⟨some "f.png", some "b.png", some "s.png"⟩ 7 (fun _ => true) rfl rfl rfl
      (fun _ => rfl)).2.2.1⟩

/-- C8: for every authenticated submission in which only 2 of the 3 slots
have a bound file, `handleContinue` fails with the incomplete-submission
outcome and issues zero storage calls — no uploads and no record
insert. -/
theorem C8_incomplete_no_storage_calls (u : String) (d : DocState) (now : Nat)
    (uploadOk : Slot → Bool) (insertOk : Bool) (h2 : boundCount d = 2) :
    (handleContinue (some u) d now uploadOk insertOk).1 =
      Outcome.incompleteSubmission ∧
    uploadCallCount (handleContinue (some u) d now uploadOk insertOk).2 = 0 ∧
    insertCallCount (handleContinue (some u) d now uploadOk insertOk).2 = 0 := by
  obtain ⟨f, b, sf⟩ := d
  cases f <;> cases b <;> cases sf <;>
    simp_all [boundCount, handleContinue, uploadCallCount, insertCallCount]

/-- Witness for C8 with front and back bound but no selfie. -/
theorem C8_incomplete_no_storage_calls_witness :
    boundCount ⟨some "f.png", some "b.png", none⟩ = 2 ∧
    (handleContinue (some "u3") ⟨some "f.png", some "b.png", none⟩ 0
      (fun _ => true) true).1 = Outcome.incompleteSubmission :=
  ⟨by decide,
   (C8_incomplete_no_storage_calls "u3" ⟨some "f.png", some "b.png", none⟩ 0
      (fun _ => true) true (by decide)).1⟩

end DocumentVerification
